import Mathlib

/-!
Shallow embedding of the image-location resolution subsystem of the
ExcelToPDFTemplate repository (src/CatchExcelImageTool.py, plus the
`extract_dispimg_id` helper of src/core.py), together with theorems that
check the specification's claims against it.

Modelling conventions:
* Python strings are `List Char` (`Str`); byte buffers are `List Nat`.
* The xlsx file has two views, as in the source: the zip-archive view
  (named entries, plus the parsed `xl/cellimages.xml` manifest and its
  relationship part) and the openpyxl workbook view (sheets with cells
  and floating images).  A path for which a view is `none` makes the
  corresponding open call raise.
* Python dicts are association lists in which an update removes the old
  binding and prepends the new one, so `alookup` (first match) agrees
  with dict lookup; dict iteration order is not modelled (no claim
  depends on it, and Python set iteration order is unspecified anyway).
* The process-wide caches `_image_position_cache` / `_workbook_cache`
  are an explicit `CacheState` threaded through the functions.
* File writes are returned as an explicit `(name, bytes)` list;
  `os.path.join` is modelled as concatenation with a `/` separator and
  `os.path.abspath` as the identity (pure path bookkeeping).
* Exceptions are `Except PyErr`; a caller that swallows them (a bare
  `except:` in the source) pattern matches on the error case.
-/

abbrev Str := List Char

abbrev Bytes := List Nat

/-- Association-list lookup: first (most recently inserted) binding wins. -/
def alookup {κ : Type} {α : Type} [DecidableEq κ] (k : κ) : List (κ × α) → Option α
  | [] => none
  | (k', v) :: t => if k = k' then some v else alookup k t

/-- Python dict update: drop any old binding for the key, prepend the new one. -/
def dict_upd (m : List (Str × Str)) (k v : Str) : List (Str × Str) :=
  (k, v) :: m.filter (fun q => q.1 ≠ k)

/-- Python substring test (`needle in hay`). -/
def containsSub (needle : Str) : Str → Bool
  | [] => needle.isEmpty
  | c :: t => needle.isPrefixOf (c :: t) || containsSub needle t

/-- Python `str.find(ch, start)`: absolute index of the first occurrence at or
after `start`, or `-1` when absent. -/
def pyFindChar (v : Str) (ch : Char) (start : Nat) : Int :=
  match (v.drop start).findIdx? (fun x => x = ch) with
  | some i => ((start + i : Nat) : Int)
  | none => -1

/-- Python slice `v[start:stop]` for a non-negative start and a possibly
negative stop (negative stop counts from the end, clamped at zero). -/
def pySlice (v : Str) (start : Nat) (stop : Int) : Str :=
  let stopN : Nat := if stop < 0 then v.length - stop.natAbs else min stop.toNat v.length
  (v.take stopN).drop start

/-- The literal `=_xlfn.DISPIMG(` that `_extract_dispimg_ids` looks for with
Python's `in` operator (spelled as an explicit character list). -/
def dispimgMarker : Str :=
  ['=', '_', 'x', 'l', 'f', 'n', '.', 'D', 'I', 'S', 'P', 'I', 'M', 'G', '(']

/-- The regex alternative `=_xlfn.DISPIMG("` of core.py's `extract_dispimg_id`. -/
def eqXlfnDispimg : Str := dispimgMarker ++ ['"']

/-- The regex alternative `=DISPIMG("` of core.py's `extract_dispimg_id`. -/
def eqDispimg : Str :=
  ['=', 'D', 'I', 'S', 'P', 'I', 'M', 'G', '(', '"']

/-- The bare pattern `DISPIMG("` named by the specification. -/
def dispimgParen : Str :=
  ['D', 'I', 'S', 'P', 'I', 'M', 'G', '(', '"']

/-- Fixed archive prefix prepended to relationship targets (`'xl/' + ...`). -/
def xl_dir : Str := "xl/".data

/-- Forced output extension `.png`. -/
def png_ext : Str := ".png".data

/-- Output name prefix `matched_image_` used for floating images. -/
def matched_stem : Str := "matched_image_".data

/-- Path separator; `os.path.join` is modelled as `d ++ "/" ++ f`. -/
def path_join (d f : Str) : Str := d ++ '/' :: f

/-- openpyxl `column_index_from_string`: bijective base-26 value of an
uppercase column letter string (modelled total; callers only pass strings
produced by `get_column_letter`). -/
def column_index_from_string (s : Str) : Nat :=
  s.foldl (fun acc c => acc * 26 + (c.toNat - 64)) 0

/-- Fuel-driven worker for `get_column_letter` (structural recursion so that
the kernel can evaluate it; fuel `n` is always enough since `(n-1)/26 < n`). -/
def col_letter_aux : Nat → Nat → Str
  | 0, _ => []
  | fuel + 1, n =>
    if n = 0 then []
    else col_letter_aux fuel ((n - 1) / 26) ++ [Char.ofNat (65 + (n - 1) % 26)]

/-- openpyxl `get_column_letter`: bijective base-26 rendering, `1 ↦ "A"`. -/
def get_column_letter (n : Nat) : Str := col_letter_aux n n

/-- The slice `value[value.find('"')+1 : value.find('"', start)]` that
`_extract_dispimg_ids` uses to cut the identifier out of a formula,
including Python's `-1`-on-absence behaviour of `find`. -/
def extract_id_from_value (v : Str) : Str :=
  let start : Nat := (pyFindChar v '"' 0 + 1).toNat
  pySlice v start (pyFindChar v '"' start)

/-- One worksheet cell as openpyxl's `iter_rows` yields it: 1-based row and
column plus the (formula) value, `none` for an empty cell. -/
structure Cell where
  row : Nat
  col : Nat
  value : Option Str
deriving DecidableEq

/-- Anchor metadata of one floating image, as probed by attribute presence in
`_build_image_position_cache`: a `_from` sub-object with 0-based row/col, flat
0-based row/col fields on the anchor itself, or no recognizable fields. -/
inductive AnchorInfo where
  | nestedFrom (row col : Nat)
  | flatRowCol (row col : Nat)
  | noPos
deriving DecidableEq

/-- One floating image of a worksheet (`ws._images` element).  `broken` marks
an image whose processing raises (the per-image `except` path); `data` is the
result of `img._data()` (`none` when neither `_data` nor `ref` exists);
`fmt` is the optional `img.format` attribute. -/
structure Image where
  anchor : Option AnchorInfo
  broken : Bool
  data : Option Bytes
  fmt : Option Str
deriving DecidableEq

/-- One worksheet of the openpyxl view. -/
structure Worksheet where
  title : Str
  rows : List (List Cell)
  images : List Image
deriving DecidableEq

/-- The openpyxl workbook view: ordered sheets. -/
structure Workbook where
  sheets : List Worksheet
deriving DecidableEq

/-- Parsed content of `xl/cellimages.xml` and its relationship part:
`pics` are `(name, embed-rid)` pairs in document order, `rels` are
`(Id, Target)` pairs in document order. -/
structure CellImages where
  pics : List (Str × Str)
  rels : List (Str × Str)
deriving DecidableEq

/-- The zip view of the file: the scheme-A manifest parts (`none` when
`xl/cellimages.xml` or `xl/_rels/cellimages.xml.rels` is absent, the
`KeyError` case) and the remaining named entries with their bytes. -/
structure Zip where
  cellimages : Option CellImages
  entries : List (Str × Bytes)
deriving DecidableEq

/-- One file on disk: `none` views make the corresponding open call raise
(`zipfile.ZipFile` / `openpyxl.load_workbook`). -/
structure XFile where
  zipv : Option Zip
  wbv : Option Workbook
deriving DecidableEq

/-- The file system: paths mapped to files; an absent path makes every open
call raise. -/
abbrev FileSys := List (Str × XFile)

/-- Exceptions surfaced by the modelled library calls. -/
inductive PyErr where
  | loadError
  | badZipFile
  | keyError (entry : Str)
deriving DecidableEq

/-- `openpyxl.load_workbook`: the workbook view, or a raised parse error. -/
def loadWorkbook (fs : FileSys) (path : Str) : Except PyErr Workbook :=
  match alookup path fs with
  | some f =>
    match f.wbv with
    | some wb => Except.ok wb
    | none => Except.error PyErr.loadError
  | none => Except.error PyErr.loadError

/-- `zipfile.ZipFile(path)`: the zip view, or a raised `BadZipFile`. -/
def openZip (fs : FileSys) (path : Str) : Except PyErr Zip :=
  match alookup path fs with
  | some f =>
    match f.zipv with
    | some z => Except.ok z
    | none => Except.error PyErr.badZipFile
  | none => Except.error PyErr.badZipFile

/-- `z.read(name)`: the entry's bytes, or a raised `KeyError`. -/
def zipRead (z : Zip) (name : Str) : Except PyErr Bytes :=
  match alookup name z.entries with
  | some b => Except.ok b
  | none => Except.error (PyErr.keyError name)

/-- `wb.sheetnames` membership plus `wb[sheet_name]`: the first sheet with the
given title (titles are unique in a real workbook). -/
def find_sheet (wb : Workbook) (sheet : Str) : Option Worksheet :=
  wb.sheets.find? (fun w => w.title == sheet)

/-- Whether a cell is scanned given the optional target column, following the
Python truthiness of `if target_col and cell.column != col_idx: continue`
(an empty target string disables the restriction). -/
def cell_in_scope (target_col : Option Str) (c : Cell) : Bool :=
  match target_col with
  | none => true
  | some t => t.isEmpty || c.col == column_index_from_string t

/-- The per-cell step of `_extract_dispimg_ids`: contains-marker test on
`str(cell.value or "")` and first-two-quotes slice. -/
def dispimg_scan_cell (c : Cell) : Option Str :=
  if containsSub dispimgMarker (c.value.getD []) then
    some (extract_id_from_value (c.value.getD []))
  else none

/-- The combined per-cell contribution (scope guard plus scan), used to state
what `_extract_dispimg_ids` collects. -/
def scan_cell_opt (target_col : Option Str) (c : Cell) : Option Str :=
  if cell_in_scope target_col c then dispimg_scan_cell c else none

/-- `_extract_dispimg_ids`: scan all cells in `iter_rows` order, optionally
restricted to one column letter, appending the sliced identifier of every
cell whose value contains `=_xlfn.DISPIMG(`. -/
def extract_dispimg_ids (ws : Worksheet) (target_col : Option Str) : List Str :=
  ws.rows.foldl
    (fun acc row =>
      row.foldl
        (fun acc2 c =>
          if cell_in_scope target_col c then
            match dispimg_scan_cell c with
            | some id => acc2 ++ [id]
            | none => acc2
          else acc2)
        acc)
    []

/-- Attempt of core.py's regex `=(?:_xlfn\.)?DISPIMG\("([^"]+)"` at one fixed
position: optional-group backtracking tries the `_xlfn.` branch first, then
the group takes the maximal nonempty run of non-quote characters, which must
be followed by a closing quote. -/
def match_dispimg_at (cs : Str) : Option Str :=
  let rest? : Option Str :=
    if eqXlfnDispimg.isPrefixOf cs then some (cs.drop eqXlfnDispimg.length)
    else if eqDispimg.isPrefixOf cs then some (cs.drop eqDispimg.length)
    else none
  match rest? with
  | none => none
  | some rest =>
    let grp := rest.takeWhile (fun c => c ≠ '"')
    if grp.isEmpty then none
    else
      match rest.drop grp.length with
      | '"' :: _ => some grp
      | _ => none

/-- `re.search`: try the pattern at each position, leftmost match wins. -/
def re_search_dispimg : Str → Option Str
  | [] => none
  | c :: t =>
    match match_dispimg_at (c :: t) with
    | some id => some id
    | none => re_search_dispimg t

/-- core.py `extract_dispimg_id`: `None`/empty/non-string values yield `none`
(non-string inputs are outside this model), otherwise regex search. -/
def extract_dispimg_id (cell_value : Option Str) : Option Str :=
  match cell_value with
  | none => none
  | some v => if v.isEmpty then none else re_search_dispimg v

/-- The `name -> rid` dict built from the manifest's picture elements
(`for pic in root.findall('.//xdr:pic')`, duplicates overwrite). -/
def name_to_rid (ci : CellImages) : List (Str × Str) :=
  ci.pics.foldl (fun m q => dict_upd m q.1 q.2) []

/-- The `rid -> target` dict built from the relationship entries. -/
def rid_to_path (ci : CellImages) : List (Str × Str) :=
  ci.rels.foldl (fun m q => dict_upd m q.1 q.2) []

/-- The final comprehension of `_build_id_to_image_map`:
`{name: rid_to_path[rid] for name, rid in name_to_rid.items() if rid in rid_to_path}`. -/
def build_id_map_core (ci : CellImages) : List (Str × Str) :=
  (name_to_rid ci).filterMap
    (fun q => (alookup q.2 (rid_to_path ci)).map (fun t => (q.1, t)))

/-- `_build_id_to_image_map`: open the zip (a `BadZipFile` propagates), return
the empty mapping when a manifest part is absent (the caught `KeyError`),
otherwise the name-to-target join. -/
def build_id_to_image_map (fs : FileSys) (path : Str) : Except PyErr (List (Str × Str)) :=
  match openZip fs path with
  | Except.error e => Except.error e
  | Except.ok z =>
    match z.cellimages with
    | none => Except.ok []
    | some ci => Except.ok (build_id_map_core ci)

/-- The process-wide caches `_image_position_cache` / `_workbook_cache` as an
explicit state. -/
structure CacheState where
  posCache : List (Str × List ((Nat × Nat) × Nat))
  wbCache : List (Str × Workbook)
deriving DecidableEq

/-- A position map: 1-based `(row, col)` bound to a zero-based image index;
bindings are prepended, so `alookup` sees the latest one. -/
abbrev PositionMap := List ((Nat × Nat) × Nat)

/-- The cache key `f"{xlsx_path}#{sheet_name}"`. -/
def pos_key (path sheet : Str) : Str := path ++ '#' :: sheet

/-- `clear_image_cache`: drop both caches (closing of workbook handles is an
unmodelled effect). -/
def clear_image_cache (_st : CacheState) : CacheState := CacheState.mk [] []

/-- The 1-based grid position the cache-building loop reads off one image:
`_from.row + 1 / _from.col + 1`, or the flat `row + 1 / col + 1`; `none` when
the image is skipped (no usable anchor fields, or its processing raises). -/
def anchor_grid_pos (img : Image) : Option (Nat × Nat) :=
  if img.broken then none
  else
    match img.anchor with
    | some (AnchorInfo.nestedFrom r c) => some (r + 1, c + 1)
    | some (AnchorInfo.flatRowCol r c) => some (r + 1, c + 1)
    | some AnchorInfo.noPos => none
    | none => none

/-- The `for i, img in enumerate(ws._images)` loop of
`_build_image_position_cache`: record `position_map[(row, col)] = i`,
later images overwriting earlier ones at the same position. -/
def build_position_map (imgs : List Image) : PositionMap :=
  imgs.enum.foldl
    (fun m e =>
      match anchor_grid_pos e.2 with
      | some p => (p, e.1) :: m
      | none => m)
    []

/-- Shared tail of `_build_image_position_cache` once a workbook is at hand:
an absent sheet caches the empty map without scanning anchors; a present
sheet has its image anchors scanned (the returned counter is 1 exactly when
a fresh anchor scan of the worksheet happened). -/
def build_pm_with_wb (st : CacheState) (key : Str) (wb : Workbook) (sheet : Str) :
    CacheState × PositionMap × Nat :=
  match find_sheet wb sheet with
  | none => (CacheState.mk ((key, []) :: st.posCache) st.wbCache, [], 0)
  | some ws =>
    (CacheState.mk ((key, build_position_map ws.images) :: st.posCache) st.wbCache,
     build_position_map ws.images, 1)

/-- `_build_image_position_cache`: return the cached map when the key is
present; otherwise reuse or load the workbook (a load failure is swallowed
and the empty map is cached), find the sheet and scan its anchors, caching
whatever map was accumulated.  Never raises. -/
def build_image_position_cache (fs : FileSys) (st : CacheState) (path sheet : Str) :
    CacheState × PositionMap × Nat :=
  match alookup (pos_key path sheet) st.posCache with
  | some m => (st, m, 0)
  | none =>
    match alookup path st.wbCache with
    | some wb => build_pm_with_wb st (pos_key path sheet) wb sheet
    | none =>
      match loadWorkbook fs path with
      | Except.error _ =>
        (CacheState.mk ((pos_key path sheet, []) :: st.posCache) st.wbCache, [], 0)
      | Except.ok wb =>
        build_pm_with_wb (CacheState.mk st.posCache ((path, wb) :: st.wbCache))
          (pos_key path sheet) wb sheet

/-- `_get_cached_workbook`: cached workbook for the path, loading and storing
it on first access; the underlying load error propagates. -/
def get_cached_workbook (fs : FileSys) (st : CacheState) (path : Str) :
    CacheState × Except PyErr Workbook :=
  match alookup path st.wbCache with
  | some wb => (st, Except.ok wb)
  | none =>
    match loadWorkbook fs path with
    | Except.ok wb =>
      (CacheState.mk st.posCache ((path, wb) :: st.wbCache), Except.ok wb)
    | Except.error e => (st, Except.error e)

/-- `extract_image_by_id`: resolve the identifier through the scheme-A map
(`None` and no write when unknown), then read `'xl/' + target` from the zip
and write it to `output_dir/<id>.png`.  Returned writes are `(name, bytes)`. -/
def extract_image_by_id (fs : FileSys) (path imageId outDir : Str) :
    Except PyErr (Option Str × List (Str × Bytes)) :=
  match build_id_to_image_map fs path with
  | Except.error e => Except.error e
  | Except.ok m =>
    match alookup imageId m with
    | none => Except.ok (none, [])
    | some t =>
      match openZip fs path with
      | Except.error e => Except.error e
      | Except.ok z =>
        match zipRead z (xl_dir ++ t) with
        | Except.error e => Except.error e
        | Except.ok b =>
          Except.ok (some (path_join outDir (imageId ++ png_ext)),
                     [(path_join outDir (imageId ++ png_ext), b)])

/-- The `for img_id in set(all_ids)` save loop of the bulk extractors: an
identifier absent from the map is skipped; a present one has its archive
entry read (a missing entry raises) and written. -/
def save_ids_loop (z : Zip) (m : List (Str × Str)) (outDir : Str) :
    List Str → Except PyErr (List Str × List (Str × Bytes))
  | [] => Except.ok ([], [])
  | id :: rest =>
    match alookup id m with
    | none => save_ids_loop z m outDir rest
    | some t =>
      match zipRead z (xl_dir ++ t) with
      | Except.error e => Except.error e
      | Except.ok b =>
        match save_ids_loop z m outDir rest with
        | Except.error e => Except.error e
        | Except.ok (locs, ws) =>
          Except.ok (path_join outDir (id ++ png_ext) :: locs,
                     (path_join outDir (id ++ png_ext), b) :: ws)

/-- `extract_workbook_images`: load the workbook (failures are fatal), gather
`DISPIMG` identifiers over all sheets, build the scheme-A map, deduplicate
(Python iterates a `set`, whose order is unspecified; `dedup` keeps one
occurrence per identifier) and run the save loop. -/
def extract_workbook_images (fs : FileSys) (path outDir : Str) :
    Except PyErr (List Str × List (Str × Bytes)) :=
  match loadWorkbook fs path with
  | Except.error e => Except.error e
  | Except.ok wb =>
    match build_id_to_image_map fs path with
    | Except.error e => Except.error e
    | Except.ok m =>
      match openZip fs path with
      | Except.error e => Except.error e
      | Except.ok z =>
        save_ids_loop z m outDir
          (wb.sheets.foldl (fun acc ws => acc ++ extract_dispimg_ids ws none) []).dedup

/-- The output extension chosen by `_extract_image_from_openpyxl_object`:
a truthy `img.format` attribute lower-cased behind a dot, else `.png`. -/
def img_ext (img : Image) : Str :=
  match img.fmt with
  | some f => if f.isEmpty then png_ext else '.' :: f.map Char.toLower
  | none => png_ext

/-- `_extract_image_from_openpyxl_object`: take the image object's bytes
(`none` when no data attribute exists), choose the extension from a truthy
`img.format` (lower-cased) or default to `.png`, and write
`matched_image_<index+1><ext>`. -/
def extract_image_from_openpyxl_object (img : Image) (idx : Nat) (outDir : Str) :
    Option Str × List (Str × Bytes) :=
  match img.data with
  | none => (none, [])
  | some b =>
    (some (path_join outDir (matched_stem ++ Nat.toDigits 10 (idx + 1) ++ img_ext img)),
     [(path_join outDir (matched_stem ++ Nat.toDigits 10 (idx + 1) ++ img_ext img), b)])

/-- `_extract_floating_image_from_cell`: build (or fetch) the position map for
the worksheet, look up the exact 1-based target position, and extract that
image object if the index is in range; every miss yields `none`. -/
def extract_floating_image_from_cell (fs : FileSys) (st : CacheState) (path : Str)
    (ws : Worksheet) (targetRow targetCol : Nat) (outDir : Str) :
    CacheState × Option Str × List (Str × Bytes) :=
  match alookup (targetRow, targetCol) (build_image_position_cache fs st path ws.title).2.1 with
  | none => ((build_image_position_cache fs st path ws.title).1, none, [])
  | some idx =>
    match ws.images[idx]? with
    | none => ((build_image_position_cache fs st path ws.title).1, none, [])
    | some img =>
      ((build_image_position_cache fs st path ws.title).1,
       (extract_image_from_openpyxl_object img idx outDir).1,
       (extract_image_from_openpyxl_object img idx outDir).2)

/-- The `for img_id in dispimg_ids` loop of `extract_image_from_cell`:
return the first identifier that resolves to a written file; an exception
from `extract_image_by_id` propagates (to the caller's broad `except`). -/
def try_ids_loop (fs : FileSys) (path outDir : Str) :
    List Str → Except PyErr (Option (Str × List (Str × Bytes)))
  | [] => Except.ok none
  | id :: rest =>
    match extract_image_by_id fs path id outDir with
    | Except.error e => Except.error e
    | Except.ok (some loc, w) => Except.ok (some (loc, w))
    | Except.ok (none, _) => try_ids_loop fs path outDir rest

/-- A cell address as openpyxl resolves `ws[cell_address]`: 1-based row and
column (A1-style parsing is the library's concern). -/
structure CellAddr where
  row : Nat
  col : Nat
deriving DecidableEq

/-- `extract_image_from_cell`: the whole body sits in a broad `try/except`
returning `None`, so an unloadable workbook or a raising scheme-A resolution
yields `none` rather than an error.  Otherwise: absent sheet yields `none`;
scheme A scans the cell's column for `DISPIMG` identifiers and returns the
first resolvable one; only then is the floating-image exact-position lookup
attempted. -/
def extract_image_from_cell (fs : FileSys) (st : CacheState) (path sheet : Str)
    (addr : CellAddr) (outDir : Str) :
    CacheState × Option Str × List (Str × Bytes) :=
  match get_cached_workbook fs st path with
  | (st1, Except.error _) => (st1, none, [])
  | (st1, Except.ok wb) =>
    match find_sheet wb sheet with
    | none => (st1, none, [])
    | some ws =>
      match try_ids_loop fs path outDir
          (extract_dispimg_ids ws (some (get_column_letter addr.col))) with
      | Except.error _ => (st1, none, [])
      | Except.ok (some (loc, w)) => (st1, some loc, w)
      | Except.ok none =>
        extract_floating_image_from_cell fs st1 path ws addr.row addr.col outDir

/-!  Concrete fixtures used to evaluate the theorems on explicit inputs. -/

/-- The empty cache (process start / after `clear_image_cache`). -/
def cache0 : CacheState := CacheState.mk [] []

/-- A destination directory name. -/
def out_dir : Str := "out".data

/-- Path of the well-formed sample workbook. -/
def pathA : Str := "t.xlsx".data

/-- A floating image anchored (0-based) at row 9, col 0, with data bytes. -/
def imgF : Image := Image.mk (some (AnchorInfo.nestedFrom 9 0)) false (some [1, 2, 3]) none

/-- A cell in row 1, column B holding a `DISPIMG` formula for `ID_42`. -/
def cellA : Cell := Cell.mk 1 2 (some ("=_xlfn.DISPIMG(\"ID_42\",1)".data))

/-- The sample worksheet. -/
def wsA : Worksheet := Worksheet.mk ("Sheet1".data) [[Cell.mk 1 1 none, cellA]] [imgF]

/-- The sample workbook. -/
def wbA : Workbook := Workbook.mk [wsA]

/-- Manifest parts: `ID_42` joins to `media/image3.png` via `rId7`; `ID_drop`
references the absent `rId9`; `rId8` is referenced by no picture name. -/
def ciA : CellImages := CellImages.mk
  [("ID_42".data, "rId7".data), ("ID_drop".data, "rId9".data)]
  [("rId7".data, "media/image3.png".data), ("rId8".data, "media/unused.png".data)]

/-- The zip view of the sample workbook, with the PNG magic as entry bytes. -/
def zipA : Zip := Zip.mk (some ciA) [("xl/media/image3.png".data, [137, 80, 78, 71])]

/-- The sample file system. -/
def fsA : FileSys := [(pathA, XFile.mk (some zipA) (some wbA))]

/-- The cache state after the sample workbook has been loaded and cached. -/
def stA1 : CacheState := CacheState.mk [] [(pathA, wbA)]

/-- Path of a workbook with no scheme-A manifest part. -/
def pathB : Str := "plain.xlsx".data

/-- A worksheet that does contain a `DISPIMG` formula (for `ID_9`). -/
def wsB : Worksheet :=
  Worksheet.mk ("Sheet1".data) [[Cell.mk 1 1 (some ("=_xlfn.DISPIMG(\"ID_9\",1)".data))]] []

/-- File system holding a workbook whose zip lacks `xl/cellimages.xml`. -/
def fsB : FileSys :=
  [(pathB, XFile.mk (some (Zip.mk none [])) (some (Workbook.mk [wsB])))]

/-- Path of a file that is neither a readable zip nor a loadable workbook. -/
def pathBad : Str := "bad.xlsx".data

/-- File system holding only the unreadable file. -/
def fsBad : FileSys := [(pathBad, XFile.mk none none)]

/-- Path of a workbook whose manifest maps `ID_1` to a missing archive entry. -/
def pathC : Str := "c.xlsx".data

/-- File system for the missing-entry workbook: `ID_1 -> rId1 -> media/m.png`,
but the zip holds no `xl/media/m.png` entry. -/
def fsC : FileSys :=
  [(pathC,
    XFile.mk
      (some (Zip.mk (some (CellImages.mk [("ID_1".data, "rId1".data)]
                                         [("rId1".data, "media/m.png".data)])) []))
      (some (Workbook.mk
        [Worksheet.mk ("Sheet1".data)
          [[Cell.mk 1 1 (some ("=_xlfn.DISPIMG(\"ID_1\",1)".data))]] []])))]

/-- Two images anchored at the same 0-based position (2,3): one through the
nested `_from` layout, one through the flat layout. -/
def imgs3 : List Image :=
  [Image.mk (some (AnchorInfo.nestedFrom 2 3)) false none none,
   Image.mk (some (AnchorInfo.flatRowCol 2 3)) false none none]

/-!  Generic list facts used by the proofs. -/

theorem isPrefixOf_append_self {α : Type} [BEq α] [LawfulBEq α] (xs ys : List α) :
    xs.isPrefixOf (xs ++ ys) = true := by
  induction xs with
  | nil => simp [List.isPrefixOf]
  | cons a t ih => simp [List.isPrefixOf, ih]

theorem findIdx_append_shift {α : Type} (p : α → Bool) (xs ys : List α) (i : Nat)
    (h : ∀ x ∈ xs, p x = false) :
    List.findIdx? p (xs ++ ys) i = List.findIdx? p ys (i + xs.length) := by
  induction xs generalizing i with
  | nil => simp
  | cons a t ih =>
    have ha : p a = false := h a (by simp)
    have ht : ∀ x ∈ t, p x = false := fun x hx => h x (by simp [hx])
    simp only [List.cons_append, List.findIdx?_cons, ha, Bool.false_eq_true, if_false]
    rw [ih (i + 1) ht]
    have harith : i + 1 + t.length = i + (a :: t).length := by
      simp only [List.length_cons]
      omega
    rw [harith]

theorem findIdx_all_false {α : Type} (p : α → Bool) (ys : List α) (i : Nat)
    (h : ∀ x ∈ ys, p x = false) :
    List.findIdx? p ys i = none := by
  induction ys generalizing i with
  | nil => rfl
  | cons a t ih =>
    have ha : p a = false := h a (by simp)
    simp only [List.findIdx?_cons, ha, Bool.false_eq_true, if_false]
    exact ih (i + 1) (fun x hx => h x (by simp [hx]))

theorem takeWhile_append_stop {α : Type} (p : α → Bool) (xs : List α) (y : α) (ys : List α)
    (hxs : ∀ x ∈ xs, p x = true) (hy : p y = false) :
    (xs ++ y :: ys).takeWhile p = xs := by
  induction xs with
  | nil => simp [List.takeWhile_cons, hy]
  | cons a t ih =>
    have ha : p a = true := hxs a (by simp)
    simp [List.takeWhile_cons, ha, ih (fun x hx => hxs x (by simp [hx]))]

theorem filterMap_guard {α β : Type} (p : α → Bool) (f : α → Option β) (l : List α) :
    l.filterMap (fun c => if p c then f c else none) = (l.filter p).filterMap f := by
  induction l with
  | nil => rfl
  | cons c t ih => cases h : p c <;> simp [List.filter_cons, List.filterMap_cons, h, ih]

theorem alookup_cons_self {κ α : Type} [DecidableEq κ] (k : κ) (v : α) (m : List (κ × α)) :
    alookup k ((k, v) :: m) = some v := by
  simp [alookup]

theorem alookup_cons_ne {κ α : Type} [DecidableEq κ] (k k' : κ) (v : α) (m : List (κ × α))
    (h : k' ≠ k) : alookup k' ((k, v) :: m) = alookup k' m := by
  simp [alookup, h]

/-!  Column-letter round trip: `column_index_from_string (get_column_letter n) = n`. -/

theorem col_letter_aux_zero (fuel : Nat) : col_letter_aux fuel 0 = [] := by
  cases fuel <;> rfl

theorem char_toNat_letter (r : Nat) (hr : r < 26) : (Char.ofNat (65 + r)).toNat = 65 + r := by
  interval_cases r <;> decide

theorem col_letter_aux_foldl (fuel : Nat) :
    ∀ n a, 1 ≤ n → n ≤ fuel →
      (col_letter_aux fuel n).foldl (fun acc c => acc * 26 + (c.toNat - 64)) a
        = a * 26 ^ (col_letter_aux fuel n).length + n := by
  induction fuel with
  | zero => intro n a h1 h2; omega
  | succ fuel ih =>
    intro n a h1 _
    have hn : ¬ n = 0 := by omega
    have hmod : 26 * ((n - 1) / 26) + (n - 1) % 26 = n - 1 := Nat.div_add_mod (n - 1) 26
    have hrlt : (n - 1) % 26 < 26 := Nat.mod_lt _ (by omega)
    have hchar : (Char.ofNat (65 + (n - 1) % 26)).toNat = 65 + (n - 1) % 26 :=
      char_toNat_letter _ hrlt
    simp only [col_letter_aux, hn, if_false]
    rw [List.foldl_append]
    by_cases hq : (n - 1) / 26 = 0
    · rw [hq, col_letter_aux_zero]
      simp only [List.foldl_nil, List.nil_append, List.foldl_cons, List.length_cons,
        List.length_nil, hchar]
      have : n = (n - 1) % 26 + 1 := by omega
      rw [pow_one]
      omega
    · have hqle : (n - 1) / 26 ≤ fuel := by
        have : (n - 1) / 26 ≤ n - 1 := Nat.div_le_self _ _
        omega
      rw [ih ((n - 1) / 26) a (by omega) hqle]
      simp only [List.foldl_cons, List.foldl_nil, List.length_append, List.length_cons,
        List.length_nil, hchar]
      have hsub : 65 + (n - 1) % 26 - 64 = (n - 1) % 26 + 1 := by omega
      rw [hsub, pow_succ]
      have hne : n = 26 * ((n - 1) / 26) + (n - 1) % 26 + 1 := by omega
      ring_nf
      omega

theorem col_roundtrip (n : Nat) (h : 1 ≤ n) :
    column_index_from_string (get_column_letter n) = n := by
  have := col_letter_aux_foldl n n 0 h (Nat.le_refl n)
  simpa [column_index_from_string, get_column_letter] using this

theorem get_column_letter_ne_nil (n : Nat) (h : 1 ≤ n) : get_column_letter n ≠ [] := by
  cases n with
  | zero => omega
  | succ m =>
    show col_letter_aux (m + 1) (m + 1) ≠ []
    simp [col_letter_aux]

/-!  Characterization of `_extract_dispimg_ids` as a scan over all cells. -/

theorem scan_row_foldl (tc : Option Str) (row : List Cell) (acc : List Str) :
    row.foldl
      (fun acc2 c =>
        if cell_in_scope tc c then
          match dispimg_scan_cell c with
          | some id => acc2 ++ [id]
          | none => acc2
        else acc2)
      acc = acc ++ row.filterMap (scan_cell_opt tc) := by
  induction row generalizing acc with
  | nil => simp
  | cons c t ih =>
    simp only [List.foldl_cons, List.filterMap_cons]
    cases h : cell_in_scope tc c with
    | false => simp [scan_cell_opt, h, ih]
    | true =>
      cases hsc : dispimg_scan_cell c with
      | none => simp [scan_cell_opt, h, hsc, ih]
      | some id => simp [scan_cell_opt, h, hsc, ih]

theorem extract_dispimg_ids_eq (ws : Worksheet) (tc : Option Str) :
    extract_dispimg_ids ws tc = ws.rows.flatten.filterMap (scan_cell_opt tc) := by
  show ws.rows.foldl _ [] = _
  have main : ∀ (rows : List (List Cell)) (acc : List Str),
      rows.foldl
        (fun acc row =>
          row.foldl
            (fun acc2 c =>
              if cell_in_scope tc c then
                match dispimg_scan_cell c with
                | some id => acc2 ++ [id]
                | none => acc2
              else acc2)
            acc)
        acc = acc ++ rows.flatten.filterMap (scan_cell_opt tc) := by
    intro rows
    induction rows with
    | nil => intro acc; simp
    | cons row t ih =>
      intro acc
      simp only [List.foldl_cons, List.flatten_cons, List.filterMap_append]
      rw [ih, scan_row_foldl, List.append_assoc]
  simpa using main ws.rows []

theorem extract_dispimg_ids_col (ws : Worksheet) (t : Str) (ht : t ≠ []) :
    extract_dispimg_ids ws (some t) =
      (ws.rows.flatten.filter
        (fun c => c.col == column_index_from_string t)).filterMap dispimg_scan_cell := by
  rw [extract_dispimg_ids_eq, ← filterMap_guard]
  congr 1
  funext c
  have hte : t.isEmpty = false := by
    cases t with
    | nil => exact absurd rfl ht
    | cons a s => rfl
  simp [scan_cell_opt, cell_in_scope, hte]

/-!  Behaviour of the regex model and of the first-two-quotes slice. -/

theorem match_at_of_prefix (pre id rest : Str)
    (hpre : pre = eqXlfnDispimg ∨ (pre = eqDispimg ∧
      eqXlfnDispimg.isPrefixOf (pre ++ id ++ '"' :: rest) = false))
    (hne : id ≠ []) (hq : ∀ ch ∈ id, ch ≠ '"') :
    match_dispimg_at (pre ++ id ++ '"' :: rest) = some id := by
  have htake : (id ++ '"' :: rest).takeWhile (fun c => c ≠ '"') = id := by
    apply takeWhile_append_stop
    · intro x hx
      simp [hq x hx]
    · simp
  have hdrop : (id ++ '"' :: rest).drop id.length = '"' :: rest := List.drop_left id _
  have hem : id.isEmpty = false := by
    cases id with
    | nil => exact absurd rfl hne
    | cons a s => rfl
  rcases hpre with hpre | ⟨hpre, hnot⟩
  · subst hpre
    have h1 : eqXlfnDispimg.isPrefixOf (eqXlfnDispimg ++ id ++ '"' :: rest) = true := by
      rw [List.append_assoc]
      exact isPrefixOf_append_self _ _
    simp only [match_dispimg_at, h1, if_true]
    rw [List.append_assoc, List.drop_left, htake, hdrop, hem]
    simp
  · subst hpre
    have h2 : eqDispimg.isPrefixOf (eqDispimg ++ id ++ '"' :: rest) = true := by
      rw [List.append_assoc]
      exact isPrefixOf_append_self _ _
    simp only [match_dispimg_at, hnot, h2, if_true, Bool.false_eq_true, if_false]
    rw [List.append_assoc, List.drop_left, htake, hdrop, hem]
    simp

theorem match_at_prefix_of_some (cs id : Str) (h : match_dispimg_at cs = some id) :
    eqXlfnDispimg.isPrefixOf cs = true ∨ eqDispimg.isPrefixOf cs = true := by
  cases hb1 : eqXlfnDispimg.isPrefixOf cs with
  | true => exact Or.inl rfl
  | false =>
    cases hb2 : eqDispimg.isPrefixOf cs with
    | true => exact Or.inr rfl
    | false =>
      exfalso
      simp only [match_dispimg_at, hb1, hb2, Bool.false_eq_true, if_false] at h
      exact Option.noConfusion h

theorem re_search_of_match_at (v : Str) (id : Str) (hv : v ≠ [])
    (h : match_dispimg_at v = some id) : re_search_dispimg v = some id := by
  cases v with
  | nil => exact absurd rfl hv
  | cons c t => simp [re_search_dispimg, h]

theorem re_search_dispimg_none (v : Str)
    (h1 : containsSub eqXlfnDispimg v = false) (h2 : containsSub eqDispimg v = false) :
    re_search_dispimg v = none := by
  induction v with
  | nil => rfl
  | cons c t ih =>
    simp only [containsSub, Bool.or_eq_false_iff] at h1 h2
    cases hm : match_dispimg_at (c :: t) with
    | some id =>
      exfalso
      rcases match_at_prefix_of_some _ _ hm with h | h
      · rw [h1.1] at h; exact Bool.noConfusion h
      · rw [h2.1] at h; exact Bool.noConfusion h
    | none => simp [re_search_dispimg, hm, ih h1.2 h2.2]

theorem extract_id_value_spec (idp rest : Str) (hq : ∀ ch ∈ idp, ch ≠ '"') :
    extract_id_from_value (dispimgMarker ++ '"' :: idp ++ '"' :: rest) = idp := by
  have hmark : ∀ x ∈ dispimgMarker, (decide (x = '"')) = false := by decide
  have hidp : ∀ x ∈ idp, (decide (x = '"')) = false := by
    intro x hx
    simp [hq x hx]
  have hv1 : dispimgMarker ++ '"' :: idp ++ '"' :: rest
      = dispimgMarker ++ ('"' :: idp ++ '"' :: rest) := by
    rw [List.append_assoc]
  have hv2 : dispimgMarker ++ '"' :: idp ++ '"' :: rest
      = (dispimgMarker ++ ['"']) ++ (idp ++ '"' :: rest) := by
    simp
  have hfind1 :
      pyFindChar (dispimgMarker ++ '"' :: idp ++ '"' :: rest) '"' 0
        = (dispimgMarker.length : Int) := by
    simp only [pyFindChar, List.drop_zero]
    rw [hv1, findIdx_append_shift _ _ _ _ hmark]
    simp [List.findIdx?_cons]
  have hfind2 :
      pyFindChar (dispimgMarker ++ '"' :: idp ++ '"' :: rest) '"' (dispimgMarker.length + 1)
        = ((dispimgMarker.length + 1 + idp.length : Nat) : Int) := by
    simp only [pyFindChar]
    have hd : (dispimgMarker ++ '"' :: idp ++ '"' :: rest).drop (dispimgMarker.length + 1)
        = idp ++ '"' :: rest := by
      have hlen : dispimgMarker.length + 1 = (dispimgMarker ++ ['"']).length := by simp
      rw [hv2, hlen, List.drop_left]
    have hcons : List.findIdx? (fun x => decide (x = '"')) ('"' :: rest) (0 + idp.length)
        = some (0 + idp.length) := by
      simp [List.findIdx?_cons]
    rw [hd, findIdx_append_shift _ _ _ _ hidp, hcons]
    show ((dispimgMarker.length + 1 + (0 + idp.length) : Nat) : Int)
        = ((dispimgMarker.length + 1 + idp.length : Nat) : Int)
    congr 1
    omega
  show pySlice _ ((pyFindChar _ '"' 0 + 1).toNat) _ = idp
  rw [hfind1]
  have htonat : ((dispimgMarker.length : Int) + 1).toNat = dispimgMarker.length + 1 := by
    omega
  rw [htonat, hfind2]
  simp only [pySlice]
  have hnneg : ¬ ((dispimgMarker.length + 1 + idp.length : Nat) : Int) < 0 := by omega
  rw [if_neg hnneg]
  have htn : ((dispimgMarker.length + 1 + idp.length : Nat) : Int).toNat
      = dispimgMarker.length + 1 + idp.length := by omega
  rw [htn]
  have hmin : min (dispimgMarker.length + 1 + idp.length)
      (dispimgMarker ++ '"' :: idp ++ '"' :: rest).length
      = dispimgMarker.length + 1 + idp.length := by
    simp only [List.length_append, List.length_cons]
    omega
  rw [hmin]
  have hlen2 : dispimgMarker.length + 1 + idp.length = (dispimgMarker ++ '"' :: idp).length := by
    simp only [List.length_append, List.length_cons]
    omega
  rw [hlen2, List.take_left]
  have hsplit2 : dispimgMarker ++ '"' :: idp = (dispimgMarker ++ ['"']) ++ idp := by simp
  have hlen3 : dispimgMarker.length + 1 = (dispimgMarker ++ ['"']).length := by simp
  rw [hsplit2, hlen3, List.drop_left]

/-!  Behaviour of the position cache. -/

theorem build_pm_cache_hit (fs : FileSys) (st : CacheState) (path sheet : Str)
    (m : PositionMap) (h : alookup (pos_key path sheet) st.posCache = some m) :
    build_image_position_cache fs st path sheet = (st, m, 0) := by
  unfold build_image_position_cache
  rw [h]

theorem build_pm_with_wb_none (st : CacheState) (key : Str) (wb : Workbook) (sheet : Str)
    (h : find_sheet wb sheet = none) :
    build_pm_with_wb st key wb sheet
      = (CacheState.mk ((key, []) :: st.posCache) st.wbCache, [], 0) := by
  unfold build_pm_with_wb
  rw [h]

theorem build_pm_with_wb_some (st : CacheState) (key : Str) (wb : Workbook) (sheet : Str)
    (ws : Worksheet) (h : find_sheet wb sheet = some ws) :
    build_pm_with_wb st key wb sheet
      = (CacheState.mk ((key, build_position_map ws.images) :: st.posCache) st.wbCache,
         build_position_map ws.images, 1) := by
  unfold build_pm_with_wb
  rw [h]

theorem build_pm_with_wb_self (st : CacheState) (key : Str) (wb : Workbook) (sheet : Str) :
    alookup key ((build_pm_with_wb st key wb sheet).1).posCache
      = some ((build_pm_with_wb st key wb sheet).2.1) := by
  cases h : find_sheet wb sheet with
  | none =>
    rw [build_pm_with_wb_none st key wb sheet h]
    exact alookup_cons_self key ([] : PositionMap) st.posCache
  | some ws =>
    rw [build_pm_with_wb_some st key wb sheet ws h]
    exact alookup_cons_self key (build_position_map ws.images) st.posCache

theorem build_pm_with_wb_scan (st : CacheState) (key : Str) (wb : Workbook) (sheet : Str) :
    (build_pm_with_wb st key wb sheet).2.2 ≤ 1 := by
  cases h : find_sheet wb sheet with
  | none =>
    rw [build_pm_with_wb_none st key wb sheet h]
    exact Nat.zero_le 1
  | some ws =>
    rw [build_pm_with_wb_some st key wb sheet ws h]

theorem build_pm_cache_self (fs : FileSys) (st : CacheState) (path sheet : Str) :
    alookup (pos_key path sheet) ((build_image_position_cache fs st path sheet).1).posCache
      = some ((build_image_position_cache fs st path sheet).2.1) := by
  unfold build_image_position_cache
  cases h1 : alookup (pos_key path sheet) st.posCache with
  | some m => exact h1
  | none =>
    cases h2 : alookup path st.wbCache with
    | some wb => exact build_pm_with_wb_self st (pos_key path sheet) wb sheet
    | none =>
      cases h4 : loadWorkbook fs path with
      | error e => exact alookup_cons_self (pos_key path sheet) ([] : PositionMap) st.posCache
      | ok wb =>
        exact build_pm_with_wb_self (CacheState.mk st.posCache ((path, wb) :: st.wbCache))
          (pos_key path sheet) wb sheet

theorem build_pm_sticky (fs fs' : FileSys) (st : CacheState) (path sheet : Str) :
    build_image_position_cache fs' (build_image_position_cache fs st path sheet).1 path sheet
      = ((build_image_position_cache fs st path sheet).1,
         (build_image_position_cache fs st path sheet).2.1, 0) :=
  build_pm_cache_hit _ _ _ _ _ (build_pm_cache_self fs st path sheet)

theorem build_pm_scan_le_one (fs : FileSys) (st : CacheState) (path sheet : Str) :
    (build_image_position_cache fs st path sheet).2.2 ≤ 1 := by
  unfold build_image_position_cache
  cases h1 : alookup (pos_key path sheet) st.posCache with
  | some m => exact Nat.zero_le 1
  | none =>
    cases h2 : alookup path st.wbCache with
    | some wb => exact build_pm_with_wb_scan st (pos_key path sheet) wb sheet
    | none =>
      cases h4 : loadWorkbook fs path with
      | error e => exact Nat.zero_le 1
      | ok wb =>
        exact build_pm_with_wb_scan (CacheState.mk st.posCache ((path, wb) :: st.wbCache))
          (pos_key path sheet) wb sheet

theorem build_pm_cache0_eq (fs : FileSys) (path sheet : Str) :
    build_image_position_cache fs cache0 path sheet
      = (match loadWorkbook fs path with
         | Except.error _ => (CacheState.mk [(pos_key path sheet, [])] [], [], 0)
         | Except.ok wb =>
           build_pm_with_wb (CacheState.mk [] [(path, wb)]) (pos_key path sheet) wb sheet) :=
  rfl

theorem build_pm_fresh_scan (fs : FileSys) (path sheet : Str) (wb : Workbook) (ws : Worksheet)
    (hwb : loadWorkbook fs path = Except.ok wb) (hws : find_sheet wb sheet = some ws) :
    build_image_position_cache fs cache0 path sheet
      = (CacheState.mk [(pos_key path sheet, build_position_map ws.images)] [(path, wb)],
         build_position_map ws.images, 1) := by
  rw [build_pm_cache0_eq, hwb]
  show build_pm_with_wb (CacheState.mk [] [(path, wb)]) (pos_key path sheet) wb sheet = _
  rw [build_pm_with_wb_some (CacheState.mk [] [(path, wb)]) (pos_key path sheet) wb sheet ws hws]

theorem build_pm_load_failure (fs : FileSys) (st : CacheState) (path sheet : Str) (e : PyErr)
    (hmiss : alookup (pos_key path sheet) st.posCache = none)
    (hwbmiss : alookup path st.wbCache = none)
    (hload : loadWorkbook fs path = Except.error e) :
    build_image_position_cache fs st path sheet
      = (CacheState.mk ((pos_key path sheet, []) :: st.posCache) st.wbCache, [], 0) := by
  unfold build_image_position_cache
  rw [hmiss, hwbmiss, hload]

theorem build_pm_result_map (fs : FileSys) (st : CacheState) (path sheet : Str)
    (wb : Workbook) (ws : Worksheet)
    (hmiss : alookup (pos_key path sheet) st.posCache = none)
    (hwbhit : alookup path st.wbCache = some wb)
    (hws : find_sheet wb sheet = some ws) :
    (build_image_position_cache fs st path sheet).2.1 = build_position_map ws.images := by
  unfold build_image_position_cache
  rw [hmiss, hwbhit]
  show (build_pm_with_wb st (pos_key path sheet) wb sheet).2.1 = build_position_map ws.images
  rw [build_pm_with_wb_some st (pos_key path sheet) wb sheet ws hws]

/-!  Last-write-wins structure of the position map. -/

theorem enumFrom_append_singleton {α : Type} (n : Nat) (l : List α) (x : α) :
    List.enumFrom n (l ++ [x]) = List.enumFrom n l ++ [(n + l.length, x)] := by
  induction l generalizing n with
  | nil => simp [List.enumFrom]
  | cons a t ih =>
    show (n, a) :: List.enumFrom (n + 1) (t ++ [x])
        = (n, a) :: (List.enumFrom (n + 1) t ++ [(n + (t.length + 1), x)])
    rw [ih (n + 1)]
    have h : n + 1 + t.length = n + (t.length + 1) := by omega
    rw [h]

theorem enum_append_singleton {α : Type} (l : List α) (x : α) :
    (l ++ [x]).enum = l.enum ++ [(l.length, x)] := by
  show List.enumFrom 0 (l ++ [x]) = List.enumFrom 0 l ++ [(l.length, x)]
  rw [enumFrom_append_singleton]
  simp

theorem build_position_map_concat (imgs : List Image) (x : Image) :
    build_position_map (imgs ++ [x]) =
      (match anchor_grid_pos x with
       | some p => (p, imgs.length) :: build_position_map imgs
       | none => build_position_map imgs) := by
  unfold build_position_map
  rw [enum_append_singleton, List.foldl_append]
  simp only [List.foldl_cons, List.foldl_nil]

theorem get_concat_last {α : Type} (l : List α) (x : α) (h : l.length < (l ++ [x]).length) :
    (l ++ [x]).get ⟨l.length, h⟩ = x := by
  induction l with
  | nil => rfl
  | cons a t ih => exact ih (by simp)

theorem get_concat_lt {α : Type} (l : List α) (x : α) (j : Nat) (hj : j < l.length)
    (h' : j < (l ++ [x]).length) : (l ++ [x]).get ⟨j, h'⟩ = l.get ⟨j, hj⟩ := by
  induction l generalizing j with
  | nil => simp at hj
  | cons a t ih =>
    cases j with
    | zero => rfl
    | succ j' => exact ih j' (by simpa using hj) (by simpa using h')

theorem alookup_build_pm (imgs : List Image) (p : Nat × Nat) (j : Nat)
    (hj : j < imgs.length)
    (hpj : anchor_grid_pos (imgs.get ⟨j, hj⟩) = some p)
    (hlast : ∀ k (hk : k < imgs.length), j < k → anchor_grid_pos (imgs.get ⟨k, hk⟩) ≠ some p) :
    alookup p (build_position_map imgs) = some j := by
  revert j
  induction imgs using List.reverseRecOn with
  | nil =>
    intro j hj
    simp at hj
  | append_singleton l x ih =>
    intro j hj hpj hlast
    rw [build_position_map_concat]
    by_cases hjl : j = l.length
    · subst hjl
      have hx : anchor_grid_pos x = some p := by
        rw [get_concat_last l x hj] at hpj
        exact hpj
      rw [hx]
      exact alookup_cons_self _ _ _
    · have hjlt : j < l.length := by
        have := hj
        simp only [List.length_append, List.length_cons, List.length_nil] at this
        omega
      have hxk : anchor_grid_pos x ≠ some p := by
        have hk : l.length < (l ++ [x]).length := by simp
        have := hlast l.length hk (by omega)
        rw [get_concat_last l x hk] at this
        exact this
      have hrec : alookup p (build_position_map l) = some j := by
        apply ih j hjlt
        · rw [← get_concat_lt l x j hjlt hj]
          exact hpj
        · intro k hk hjk
          have hk' : k < (l ++ [x]).length := by
            simp only [List.length_append, List.length_cons, List.length_nil]
            omega
          have := hlast k hk' hjk
          rw [get_concat_lt l x k hk hk'] at this
          exact this
      cases hax : anchor_grid_pos x with
      | none => exact hrec
      | some q =>
        have hqp : p ≠ q := by
          intro hqp
          exact hxk (by rw [hax, hqp])
        rw [alookup_cons_ne _ _ _ _ hqp]
        exact hrec

/-!  The scheme-A name/relationship join. -/

theorem alookup_filter_ne (m : List (Str × Str)) (k k' : Str) (hne : k' ≠ k) :
    alookup k' (m.filter (fun q => q.1 ≠ k)) = alookup k' m := by
  induction m with
  | nil => rfl
  | cons q t ih =>
    by_cases ha : q.1 = k
    · have hd : (decide (q.1 ≠ k)) = false := by simp [ha]
      have hk' : k' ≠ q.1 := by rw [ha]; exact hne
      rw [List.filter_cons]
      rw [hd]
      show alookup k' (t.filter (fun q => q.1 ≠ k)) = alookup k' (q :: t)
      rw [ih]
      cases q with
      | mk a b => exact (alookup_cons_ne a k' b t hk').symm
    · have hd : (decide (q.1 ≠ k)) = true := by simp [ha]
      rw [List.filter_cons, hd]
      show alookup k' (q :: t.filter (fun q => q.1 ≠ k)) = alookup k' (q :: t)
      cases q with
      | mk a b =>
        by_cases hk : k' = a
        · subst hk
          rw [alookup_cons_self, alookup_cons_self]
        · rw [alookup_cons_ne a k' b _ hk, alookup_cons_ne a k' b t hk]
          exact ih

theorem alookup_dict_upd (m : List (Str × Str)) (k v k' : Str) :
    alookup k' (dict_upd m k v) = if k' = k then some v else alookup k' m := by
  unfold dict_upd
  by_cases hk : k' = k
  · subst hk
    rw [if_pos rfl]
    exact alookup_cons_self k' v _
  · rw [if_neg hk, alookup_cons_ne k k' v _ hk]
    exact alookup_filter_ne m k k' hk

theorem map_fst_filter_ne (m : List (Str × Str)) (k : Str) :
    (m.filter (fun q => q.1 ≠ k)).map Prod.fst
      = (m.map Prod.fst).filter (fun x => x ≠ k) := by
  induction m with
  | nil => rfl
  | cons q t ih =>
    rw [List.map_cons, List.filter_cons, List.filter_cons]
    cases hd : (decide (q.1 ≠ k)) with
    | false =>
      rw [if_neg Bool.false_ne_true, if_neg Bool.false_ne_true]
      exact ih
    | true =>
      rw [if_pos rfl, if_pos rfl, List.map_cons, ih]

theorem nodup_keys_dict_upd (m : List (Str × Str)) (k v : Str)
    (h : (m.map Prod.fst).Nodup) : ((dict_upd m k v).map Prod.fst).Nodup := by
  unfold dict_upd
  rw [List.map_cons, map_fst_filter_ne]
  refine List.Nodup.cons ?_ (h.filter _)
  intro hmem
  rw [List.mem_filter] at hmem
  exact (by simpa using hmem.2 : k ≠ k) rfl

theorem nodup_keys_fold (l : List (Str × Str)) :
    ∀ acc : List (Str × Str), (acc.map Prod.fst).Nodup →
      ((l.foldl (fun m q => dict_upd m q.1 q.2) acc).map Prod.fst).Nodup := by
  induction l with
  | nil => intro acc h; exact h
  | cons q t ih =>
    intro acc h
    exact ih (dict_upd acc q.1 q.2) (nodup_keys_dict_upd acc q.1 q.2 h)

theorem nodup_keys_name_to_rid (ci : CellImages) :
    ((name_to_rid ci).map Prod.fst).Nodup :=
  nodup_keys_fold ci.pics [] (by simp)

theorem alookup_filterMap_none (l : List (Str × Str)) (d : List (Str × Str)) (n : Str)
    (h : ¬ n ∈ l.map Prod.fst) :
    alookup n (l.filterMap (fun q => (alookup q.2 d).map (fun t => (q.1, t)))) = none := by
  induction l with
  | nil => rfl
  | cons q t ih =>
    have hn1 : n ≠ q.1 := by
      intro he
      exact h (by rw [List.map_cons, he]; exact List.mem_cons_self _ _)
    have hnt : ¬ n ∈ t.map Prod.fst := by
      intro hm
      exact h (by rw [List.map_cons]; exact List.mem_cons_of_mem _ hm)
    rw [List.filterMap_cons]
    cases hd : alookup q.2 d with
    | none => exact ih hnt
    | some v =>
      simp only [Option.map_some']
      rw [alookup_cons_ne q.1 n v _ hn1]
      exact ih hnt

theorem find_sheet_some_title (wb : Workbook) (sheet : Str) (ws : Worksheet)
    (h : find_sheet wb sheet = some ws) : ws.title = sheet := by
  have := List.find?_some h
  simpa using this

theorem save_ids_loop_nil_map (z : Zip) (outDir : Str) (l : List Str) :
    save_ids_loop z [] outDir l = Except.ok ([], []) := by
  induction l with
  | nil => rfl
  | cons id rest ih =>
    show save_ids_loop z [] outDir rest = Except.ok ([], [])
    exact ih

theorem try_ids_loop_first (fs : FileSys) (path outDir : Str) (ids1 : List Str) (id : Str)
    (ids2 : List Str) (loc : Str) (w : List (Str × Bytes))
    (h1 : ∀ x ∈ ids1, extract_image_by_id fs path x outDir = Except.ok (none, []))
    (hid : extract_image_by_id fs path id outDir = Except.ok (some loc, w)) :
    try_ids_loop fs path outDir (ids1 ++ id :: ids2) = Except.ok (some (loc, w)) := by
  induction ids1 with
  | nil =>
    show try_ids_loop fs path outDir (id :: ids2) = _
    unfold try_ids_loop
    rw [hid]
  | cons x t ih =>
    have hx : extract_image_by_id fs path x outDir = Except.ok (none, []) := h1 x (by simp)
    show try_ids_loop fs path outDir (x :: (t ++ id :: ids2)) = _
    unfold try_ids_loop
    rw [hx]
    exact ih (fun y hy => h1 y (by simp [hy]))

theorem get_cached_workbook_hit (fs : FileSys) (st : CacheState) (path : Str) (wb : Workbook)
    (h : alookup path st.wbCache = some wb) :
    get_cached_workbook fs st path = (st, Except.ok wb) := by
  unfold get_cached_workbook
  rw [h]

theorem get_cached_workbook_miss_err (fs : FileSys) (st : CacheState) (path : Str) (e : PyErr)
    (hmiss : alookup path st.wbCache = none) (hload : loadWorkbook fs path = Except.error e) :
    get_cached_workbook fs st path = (st, Except.error e) := by
  unfold get_cached_workbook
  rw [hmiss, hload]

theorem get_cached_workbook_miss_ok (fs : FileSys) (st : CacheState) (path : Str) (wb : Workbook)
    (hmiss : alookup path st.wbCache = none) (hload : loadWorkbook fs path = Except.ok wb) :
    get_cached_workbook fs st path
      = (CacheState.mk st.posCache ((path, wb) :: st.wbCache), Except.ok wb) := by
  unfold get_cached_workbook
  rw [hmiss, hload]

theorem extract_from_cell_wb_err (fs : FileSys) (st : CacheState) (path sheet : Str)
    (addr : CellAddr) (outDir : Str) (st1 : CacheState) (e : PyErr)
    (hwb : get_cached_workbook fs st path = (st1, Except.error e)) :
    extract_image_from_cell fs st path sheet addr outDir = (st1, none, []) := by
  unfold extract_image_from_cell
  rw [hwb]

theorem extract_from_cell_no_sheet (fs : FileSys) (st : CacheState) (path sheet : Str)
    (addr : CellAddr) (outDir : Str) (st1 : CacheState) (wb : Workbook)
    (hwb : get_cached_workbook fs st path = (st1, Except.ok wb))
    (hsheet : find_sheet wb sheet = none) :
    extract_image_from_cell fs st path sheet addr outDir = (st1, none, []) := by
  unfold extract_image_from_cell
  rw [hwb]
  show (match find_sheet wb sheet with
        | none => (st1, none, [])
        | some ws =>
          match try_ids_loop fs path outDir
              (extract_dispimg_ids ws (some (get_column_letter addr.col))) with
          | Except.error _ => (st1, none, [])
          | Except.ok (some (loc, w)) => (st1, some loc, w)
          | Except.ok none =>
            extract_floating_image_from_cell fs st1 path ws addr.row addr.col outDir)
      = ((st1, none, []) : CacheState × Option Str × List (Str × Bytes))
  rw [hsheet]

theorem extract_from_cell_scheme_a (fs : FileSys) (st : CacheState) (path sheet : Str)
    (addr : CellAddr) (outDir : Str) (st1 : CacheState) (wb : Workbook) (ws : Worksheet)
    (loc : Str) (w : List (Str × Bytes))
    (hwb : get_cached_workbook fs st path = (st1, Except.ok wb))
    (hsheet : find_sheet wb sheet = some ws)
    (hloop : try_ids_loop fs path outDir
        (extract_dispimg_ids ws (some (get_column_letter addr.col)))
      = Except.ok (some (loc, w))) :
    extract_image_from_cell fs st path sheet addr outDir = (st1, some loc, w) := by
  unfold extract_image_from_cell
  rw [hwb]
  show (match find_sheet wb sheet with
        | none => (st1, none, [])
        | some ws =>
          match try_ids_loop fs path outDir
              (extract_dispimg_ids ws (some (get_column_letter addr.col))) with
          | Except.error _ => (st1, none, [])
          | Except.ok (some (loc, w)) => (st1, some loc, w)
          | Except.ok none =>
            extract_floating_image_from_cell fs st1 path ws addr.row addr.col outDir)
      = ((st1, some loc, w) : CacheState × Option Str × List (Str × Bytes))
  rw [hsheet]
  show (match try_ids_loop fs path outDir
          (extract_dispimg_ids ws (some (get_column_letter addr.col))) with
        | Except.error _ => (st1, none, [])
        | Except.ok (some (loc, w)) => (st1, some loc, w)
        | Except.ok none =>
          extract_floating_image_from_cell fs st1 path ws addr.row addr.col outDir)
      = ((st1, some loc, w) : CacheState × Option Str × List (Str × Bytes))
  rw [hloop]

theorem extract_from_cell_scheme_a_err (fs : FileSys) (st : CacheState) (path sheet : Str)
    (addr : CellAddr) (outDir : Str) (st1 : CacheState) (wb : Workbook) (ws : Worksheet)
    (e : PyErr)
    (hwb : get_cached_workbook fs st path = (st1, Except.ok wb))
    (hsheet : find_sheet wb sheet = some ws)
    (hloop : try_ids_loop fs path outDir
        (extract_dispimg_ids ws (some (get_column_letter addr.col)))
      = Except.error e) :
    extract_image_from_cell fs st path sheet addr outDir = (st1, none, []) := by
  unfold extract_image_from_cell
  rw [hwb]
  show (match find_sheet wb sheet with
        | none => (st1, none, [])
        | some ws =>
          match try_ids_loop fs path outDir
              (extract_dispimg_ids ws (some (get_column_letter addr.col))) with
          | Except.error _ => (st1, none, [])
          | Except.ok (some (loc, w)) => (st1, some loc, w)
          | Except.ok none =>
            extract_floating_image_from_cell fs st1 path ws addr.row addr.col outDir)
      = ((st1, none, []) : CacheState × Option Str × List (Str × Bytes))
  rw [hsheet]
  show (match try_ids_loop fs path outDir
          (extract_dispimg_ids ws (some (get_column_letter addr.col))) with
        | Except.error _ => (st1, none, [])
        | Except.ok (some (loc, w)) => (st1, some loc, w)
        | Except.ok none =>
          extract_floating_image_from_cell fs st1 path ws addr.row addr.col outDir)
      = ((st1, none, []) : CacheState × Option Str × List (Str × Bytes))
  rw [hloop]

theorem extract_from_cell_scheme_b (fs : FileSys) (st : CacheState) (path sheet : Str)
    (addr : CellAddr) (outDir : Str) (st1 : CacheState) (wb : Workbook) (ws : Worksheet)
    (hwb : get_cached_workbook fs st path = (st1, Except.ok wb))
    (hsheet : find_sheet wb sheet = some ws)
    (hloop : try_ids_loop fs path outDir
        (extract_dispimg_ids ws (some (get_column_letter addr.col)))
      = Except.ok none) :
    extract_image_from_cell fs st path sheet addr outDir
      = extract_floating_image_from_cell fs st1 path ws addr.row addr.col outDir := by
  unfold extract_image_from_cell
  rw [hwb]
  show (match find_sheet wb sheet with
        | none => (st1, none, [])
        | some ws =>
          match try_ids_loop fs path outDir
              (extract_dispimg_ids ws (some (get_column_letter addr.col))) with
          | Except.error _ => (st1, none, [])
          | Except.ok (some (loc, w)) => (st1, some loc, w)
          | Except.ok none =>
            extract_floating_image_from_cell fs st1 path ws addr.row addr.col outDir)
      = extract_floating_image_from_cell fs st1 path ws addr.row addr.col outDir
  rw [hsheet]
  show (match try_ids_loop fs path outDir
          (extract_dispimg_ids ws (some (get_column_letter addr.col))) with
        | Except.error _ => (st1, none, [])
        | Except.ok (some (loc, w)) => (st1, some loc, w)
        | Except.ok none =>
          extract_floating_image_from_cell fs st1 path ws addr.row addr.col outDir)
      = extract_floating_image_from_cell fs st1 path ws addr.row addr.col outDir
  rw [hloop]

theorem extract_floating_miss (fs : FileSys) (st : CacheState) (path : Str) (ws : Worksheet)
    (r c : Nat) (outDir : Str)
    (hmiss : alookup (r, c) (build_image_position_cache fs st path ws.title).2.1 = none) :
    extract_floating_image_from_cell fs st path ws r c outDir
      = ((build_image_position_cache fs st path ws.title).1, none, []) := by
  unfold extract_floating_image_from_cell
  rw [hmiss]

theorem alookup_join (l d : List (Str × Str)) (n : Str)
    (hnd : (l.map Prod.fst).Nodup) :
    alookup n (l.filterMap (fun q => (alookup q.2 d).map (fun t => (q.1, t))))
      = (alookup n l).bind (fun r => alookup r d) := by
  induction l with
  | nil => rfl
  | cons q t ih =>
    rw [List.map_cons, List.nodup_cons] at hnd
    cases q with
    | mk a r =>
      cases hd : alookup r d with
      | some v =>
        simp only [List.filterMap_cons, hd, Option.map_some']
        by_cases hn : n = a
        · subst hn
          rw [alookup_cons_self, alookup_cons_self]
          simp [hd]
        · rw [alookup_cons_ne a n v _ hn, alookup_cons_ne a n r t hn]
          exact ih hnd.2
      | none =>
        simp only [List.filterMap_cons, hd, Option.map_none']
        by_cases hn : n = a
        · subst hn
          rw [alookup_filterMap_none t d n hnd.1, alookup_cons_self]
          simp [hd]
        · rw [alookup_cons_ne a n r t hn]
          exact ih hnd.2

/-!  Claim theorems. -/

/-- C1: once the cached workbook is at hand, `extract_image_from_cell`
returns `none` when the sheet is absent from the workbook; otherwise it first
attempts scheme-A identifier extraction restricted to the cell's column and
returns that extraction's result when it produces a file; only when the
scheme-A attempt yields nothing is scheme B consulted, through the Position
Cache's exact-match lookup at the cell's 1-based (row, column), and when that
exact lookup misses the overall result is `none` — no proximity or fuzzy
matching exists. -/
theorem extract_from_cell_composite (fs : FileSys) (st : CacheState) (path sheet : Str)
    (addr : CellAddr) (outDir : Str) (wb : Workbook) (st1 : CacheState)
    (hwb : get_cached_workbook fs st path = (st1, Except.ok wb)) :
    (find_sheet wb sheet = none →
      extract_image_from_cell fs st path sheet addr outDir = (st1, none, [])) ∧
    (∀ ws, find_sheet wb sheet = some ws →
      (∀ loc w, try_ids_loop fs path outDir
          (extract_dispimg_ids ws (some (get_column_letter addr.col)))
            = Except.ok (some (loc, w)) →
        extract_image_from_cell fs st path sheet addr outDir = (st1, some loc, w)) ∧
      (try_ids_loop fs path outDir
          (extract_dispimg_ids ws (some (get_column_letter addr.col))) = Except.ok none →
        alookup (addr.row, addr.col) (build_image_position_cache fs st1 path sheet).2.1
          = none →
        extract_image_from_cell fs st path sheet addr outDir
          = ((build_image_position_cache fs st1 path sheet).1, none, []))) := by
  refine ⟨fun hs => extract_from_cell_no_sheet fs st path sheet addr outDir st1 wb hwb hs,
    fun ws hs => ⟨fun loc w hl =>
      extract_from_cell_scheme_a fs st path sheet addr outDir st1 wb ws loc w hwb hs hl,
      fun hl hm => ?_⟩⟩
  have ht : ws.title = sheet := find_sheet_some_title wb sheet ws hs
  rw [extract_from_cell_scheme_b fs st path sheet addr outDir st1 wb ws hwb hs hl]
  rw [extract_floating_miss fs st1 path ws addr.row addr.col outDir (by rw [ht]; exact hm)]
  rw [ht]

/-- Witness for C1: on the sample workbook, asking for an absent sheet
yields `none` (with the workbook now cached). -/
theorem extract_from_cell_composite_witness :
    extract_image_from_cell fsA cache0 pathA ("Nope".data) (CellAddr.mk 1 1) out_dir
      = (stA1, none, []) :=
  (extract_from_cell_composite fsA cache0 pathA ("Nope".data) (CellAddr.mk 1 1) out_dir
    wbA stA1 rfl).1 rfl

/-- C2: one call to the position-map builder performs at most one anchor
scan; a second call for the same (path, sheet) pair — under any file-system
state — returns the cached map with zero scans and leaves the cache
unchanged; and after a cache clear the next request performs exactly one
fresh anchor scan (given that the workbook loads and the sheet exists). -/
theorem position_cache_scan_once (fs fs' : FileSys) (st : CacheState) (path sheet : Str) :
    (build_image_position_cache fs st path sheet).2.2 ≤ 1 ∧
    build_image_position_cache fs' (build_image_position_cache fs st path sheet).1 path sheet
      = ((build_image_position_cache fs st path sheet).1,
         (build_image_position_cache fs st path sheet).2.1, 0) ∧
    (∀ wb ws, loadWorkbook fs path = Except.ok wb → find_sheet wb sheet = some ws →
      (build_image_position_cache fs (clear_image_cache st) path sheet).2.2 = 1) := by
  refine ⟨build_pm_scan_le_one fs st path sheet, build_pm_sticky fs fs' st path sheet, ?_⟩
  intro wb ws hload hws
  show (build_image_position_cache fs cache0 path sheet).2.2 = 1
  rw [build_pm_fresh_scan fs path sheet wb ws hload hws]

/-- Witness for C2: clearing the cache and rebuilding for the sample
workbook performs exactly one fresh anchor scan. -/
theorem position_cache_scan_once_witness :
    (build_image_position_cache fsA (clear_image_cache cache0) pathA ("Sheet1".data)).2.2
      = 1 :=
  (position_cache_scan_once fsA fsA cache0 pathA ("Sheet1".data)).2.2 wbA wsA rfl rfl

/-- C3: when several floating images anchor to the same grid position, the
built position map binds that position to the index of the later-enumerated
image (last write wins), and an image's 0-based anchor coordinates — nested
`_from` or flat — are converted to the 1-based grid position by adding one to
each axis. -/
theorem floating_last_write_wins (imgs : List Image) (p : Nat × Nat) (i j : Nat)
    (hi : i < imgs.length) (hj : j < imgs.length) (hij : i < j)
    (hpi : anchor_grid_pos (imgs.get ⟨i, hi⟩) = some p)
    (hpj : anchor_grid_pos (imgs.get ⟨j, hj⟩) = some p)
    (hlast : ∀ k (hk : k < imgs.length), j < k →
      anchor_grid_pos (imgs.get ⟨k, hk⟩) ≠ some p) :
    alookup p (build_position_map imgs) = some j ∧
    (∀ img : Image, img.broken = false →
      (∀ r c, img.anchor = some (AnchorInfo.nestedFrom r c) →
        anchor_grid_pos img = some (r + 1, c + 1)) ∧
      (∀ r c, img.anchor = some (AnchorInfo.flatRowCol r c) →
        anchor_grid_pos img = some (r + 1, c + 1))) := by
  refine ⟨alookup_build_pm imgs p j hj hpj hlast, ?_⟩
  intro img hb
  constructor <;> intro r c ha <;> simp [anchor_grid_pos, hb, ha]

/-- Witness for C3: with two images anchored at 0-based (2,3), the map sends
the 1-based position (3,4) to the later index 1. -/
theorem floating_last_write_wins_witness :
    alookup ((3 : Nat), (4 : Nat)) (build_position_map imgs3) = some 1 :=
  (floating_last_write_wins imgs3 (3, 4) 0 1 (by decide) (by decide) (by decide)
    (by decide) (by decide) (by decide)).1

theorem zipRead_ok (z : Zip) (name : Str) (b : Bytes)
    (h : alookup name z.entries = some b) : zipRead z name = Except.ok b := by
  unfold zipRead
  rw [h]

theorem zipRead_err (z : Zip) (name : Str)
    (h : alookup name z.entries = none) :
    zipRead z name = Except.error (PyErr.keyError name) := by
  unfold zipRead
  rw [h]

/-- C4: `extract_image_by_id` returns `none` and writes nothing when the
identifier is unknown to the scheme-A mapping; when the identifier resolves
and the archive entry exists, it writes exactly one file,
`dest_dir/<identifier>.png`, holding exactly the entry's bytes. -/
theorem extract_by_id_contract (fs : FileSys) (path id outDir : Str) (z : Zip)
    (m : List (Str × Str))
    (hz : openZip fs path = Except.ok z)
    (hm : build_id_to_image_map fs path = Except.ok m) :
    (alookup id m = none → extract_image_by_id fs path id outDir = Except.ok (none, [])) ∧
    (∀ t b, alookup id m = some t → alookup (xl_dir ++ t) z.entries = some b →
      extract_image_by_id fs path id outDir
        = Except.ok (some (path_join outDir (id ++ png_ext)),
                     [(path_join outDir (id ++ png_ext), b)])) := by
  constructor
  · intro hid
    simp only [extract_image_by_id, hm, hid]
  · intro t b ht hb
    simp only [extract_image_by_id, hm, ht, hz, zipRead_ok z (xl_dir ++ t) b hb]

/-- Witness for C4: extracting `ID_42` from the sample workbook writes
`out/ID_42.png` with exactly the bytes of `xl/media/image3.png`. -/
theorem extract_by_id_contract_witness :
    extract_image_by_id fsA pathA ("ID_42".data) out_dir
      = Except.ok (some (path_join out_dir ("ID_42".data ++ png_ext)),
                   [(path_join out_dir ("ID_42".data ++ png_ext), [137, 80, 78, 71])]) :=
  (extract_by_id_contract fsA pathA ("ID_42".data) out_dir zipA (build_id_map_core ciA)
    rfl rfl).2 ("media/image3.png".data) [137, 80, 78, 71] rfl rfl

/-- C5: the scheme-A resolver joins picture names to relationship entries on
the relationship id (its lookup is the composition of the two dict lookups);
a name whose relationship id has no relationship entry is dropped; a
relationship entry referenced by no name never surfaces (the map binds only
picture names); and the archive path consulted for a resolved target is
exactly `"xl/" + target`, as the `KeyError` raised on a missing entry
records. -/
theorem scheme_a_join_semantics (fs : FileSys) (path outDir : Str) (z : Zip)
    (ci : CellImages) (n id t : Str)
    (hz : openZip fs path = Except.ok z)
    (hci : z.cellimages = some ci) :
    build_id_to_image_map fs path = Except.ok (build_id_map_core ci) ∧
    alookup n (build_id_map_core ci)
      = (alookup n (name_to_rid ci)).bind (fun r => alookup r (rid_to_path ci)) ∧
    (∀ r, alookup n (name_to_rid ci) = some r → alookup r (rid_to_path ci) = none →
      alookup n (build_id_map_core ci) = none) ∧
    (alookup n (name_to_rid ci) = none → alookup n (build_id_map_core ci) = none) ∧
    (alookup id (build_id_map_core ci) = some t →
      alookup (xl_dir ++ t) z.entries = none →
      extract_image_by_id fs path id outDir
        = Except.error (PyErr.keyError (xl_dir ++ t))) := by
  have hmap : build_id_to_image_map fs path = Except.ok (build_id_map_core ci) := by
    simp only [build_id_to_image_map, hz, hci]
  have hjoin : alookup n (build_id_map_core ci)
      = (alookup n (name_to_rid ci)).bind (fun r => alookup r (rid_to_path ci)) := by
    show alookup n ((name_to_rid ci).filterMap
        (fun q => (alookup q.2 (rid_to_path ci)).map (fun t => (q.1, t)))) = _
    exact alookup_join (name_to_rid ci) (rid_to_path ci) n (nodup_keys_name_to_rid ci)
  refine ⟨hmap, hjoin, ?_, ?_, ?_⟩
  · intro r hr hnone
    rw [hjoin, hr]
    simp [hnone]
  · intro hn
    rw [hjoin, hn]
    rfl
  · intro hid hent
    simp only [extract_image_by_id, hmap, hid, hz, zipRead_err z (xl_dir ++ t) hent]

/-- Witness for C5: in the sample manifest, `ID_drop` references the absent
relationship `rId9` and is silently dropped from the mapping. -/
theorem scheme_a_join_semantics_witness :
    alookup ("ID_drop".data) (build_id_map_core ciA) = none :=
  (scheme_a_join_semantics fsA pathA out_dir zipA ciA ("ID_drop".data) ("ID_42".data)
    ("media/image3.png".data) rfl rfl).2.2.1 ("rId9".data) rfl rfl

/-- C6: a workbook whose archive lacks the scheme-A manifest part yields an
empty mapping (no exception), and bulk workbook extraction consequently
performs no scheme-A extraction at all: no file is written and the result
list is empty. -/
theorem missing_manifest_graceful (fs : FileSys) (path outDir : Str) (z : Zip)
    (wb : Workbook)
    (hz : openZip fs path = Except.ok z) (hci : z.cellimages = none)
    (hwb : loadWorkbook fs path = Except.ok wb) :
    build_id_to_image_map fs path = Except.ok [] ∧
    extract_workbook_images fs path outDir = Except.ok ([], []) := by
  have hmap : build_id_to_image_map fs path = Except.ok [] := by
    simp only [build_id_to_image_map, hz, hci]
  refine ⟨hmap, ?_⟩
  simp only [extract_workbook_images, hwb, hmap, hz, save_ids_loop_nil_map]

/-- Witness for C6: the manifest-less sample workbook (which still contains a
`DISPIMG` formula) produces no scheme-A extraction. -/
theorem missing_manifest_graceful_witness :
    extract_workbook_images fsB pathB out_dir = Except.ok ([], []) :=
  (missing_manifest_graceful fsB pathB out_dir (Zip.mk none []) (Workbook.mk [wsB])
    rfl rfl rfl).2

theorem isEmpty_false_of_append_cons {α : Type} (xs : List α) (y : α) (ys : List α) :
    (xs ++ y :: ys).isEmpty = false := by
  cases xs <;> rfl

theorem ne_nil_of_append_cons {α : Type} (xs : List α) (y : α) (ys : List α) :
    xs ++ y :: ys ≠ [] := by
  cases xs <;> simp

/-- Counterexample for C7: the text `DISPIMG("ID_1",1)` contains the claimed
pattern `DISPIMG("<identifier>"` with no namespace prefix, yet core.py's
extractor returns nothing (a leading `=` is mandatory); and a cell holding
`=DISPIMG("ID_1",1)` — the pattern with `=` but without the `_xlfn.` prefix —
contributes nothing to `_extract_dispimg_ids`, whose marker test requires the
full `=_xlfn.DISPIMG(` literal, so the prefix is not optional there. -/
theorem dispimg_prefix_required_counterexample :
    containsSub dispimgParen ("DISPIMG(\"ID_1\",1)".data) = true ∧
    extract_dispimg_id (some ("DISPIMG(\"ID_1\",1)".data)) = none ∧
    containsSub dispimgParen ("=DISPIMG(\"ID_1\",1)".data) = true ∧
    extract_dispimg_ids
      (Worksheet.mk ("S".data) [[Cell.mk 1 1 (some ("=DISPIMG(\"ID_1\",1)".data))]] [])
      none = [] := by
  refine ⟨by decide, by decide, by decide, by decide⟩

/-- C7 (amended): core.py's `extract_dispimg_id` returns the quoted
identifier for a formula that starts with `=DISPIMG("` or with
`=_xlfn.DISPIMG("` — the `_xlfn.` namespace prefix is optional there, but the
leading `=` is required — and returns nothing when neither marker occurs in
the text; `_extract_dispimg_ids` requires the full `=_xlfn.DISPIMG(` marker
and slices the text between its first two quotes; its column-restricted scan
considers exactly the cells of the requested column. -/
theorem dispimg_extraction_amended (id rest v : Str) (ws : Worksheet) (t : Str)
    (hne : id ≠ []) (hq : ∀ ch ∈ id, ch ≠ '"')
    (habs1 : containsSub eqXlfnDispimg v = false)
    (habs2 : containsSub eqDispimg v = false)
    (ht : t ≠ []) :
    extract_dispimg_id (some (eqXlfnDispimg ++ id ++ '"' :: rest)) = some id ∧
    extract_dispimg_id (some (eqDispimg ++ id ++ '"' :: rest)) = some id ∧
    extract_dispimg_id (some v) = none ∧
    extract_id_from_value (dispimgMarker ++ '"' :: id ++ '"' :: rest) = id ∧
    extract_dispimg_ids ws (some t)
      = ((ws.rows.flatten.filter
          (fun c => c.col == column_index_from_string t)).filterMap dispimg_scan_cell) := by
  refine ⟨?_, ?_, ?_, extract_id_value_spec id rest hq, extract_dispimg_ids_col ws t ht⟩
  · have hm1 := match_at_of_prefix eqXlfnDispimg id rest (Or.inl rfl) hne hq
    have hs1 := re_search_of_match_at _ id (ne_nil_of_append_cons _ _ _) hm1
    simp only [extract_dispimg_id, isEmpty_false_of_append_cons, Bool.false_eq_true,
      if_false]
    exact hs1
  · have hnot : eqXlfnDispimg.isPrefixOf (eqDispimg ++ id ++ '"' :: rest) = false := rfl
    have hm2 := match_at_of_prefix eqDispimg id rest (Or.inr ⟨rfl, hnot⟩) hne hq
    have hs2 := re_search_of_match_at _ id (ne_nil_of_append_cons _ _ _) hm2
    simp only [extract_dispimg_id, isEmpty_false_of_append_cons, Bool.false_eq_true,
      if_false]
    exact hs2
  · cases v with
    | nil => rfl
    | cons ch tl =>
      have hs := re_search_dispimg_none (ch :: tl) habs1 habs2
      simp only [extract_dispimg_id, List.isEmpty_cons, Bool.false_eq_true, if_false]
      exact hs

/-- Witness for C7 (amended): the bare `=DISPIMG("ID_9"...` form is accepted
by core.py's extractor. -/
theorem dispimg_extraction_amended_witness :
    extract_dispimg_id (some (eqDispimg ++ ("ID_9".data) ++ '"' :: (",1)".data)))
      = some ("ID_9".data) :=
  (dispimg_extraction_amended ("ID_9".data) (",1)".data) ("hello".data) wsA ("B".data)
    (by decide) (by decide) (by decide) (by decide) (by decide)).2.1

/-- Counterexample for C8: for a file that cannot be opened at all,
`extract_image_from_cell` swallows the load failure and returns a plain
`none` instead of surfacing the error; and inside the bulk extractor a
mapped identifier whose archive entry is missing raises a `KeyError` that
aborts the whole call instead of being swallowed and the item omitted. -/
theorem error_swallow_counterexample :
    loadWorkbook fsBad pathBad = Except.error PyErr.loadError ∧
    extract_image_from_cell fsBad cache0 pathBad ("Sheet1".data) (CellAddr.mk 1 1) out_dir
      = (cache0, none, []) ∧
    extract_workbook_images fsC pathC out_dir
      = Except.error (PyErr.keyError ("xl/media/m.png".data)) :=
  ⟨rfl, rfl, rfl⟩

/-- C8 (amended): an open failure is fatal and surfaced for the bulk
scheme-A extractor and for the cached-workbook accessor, while
`extract_image_from_cell` converts every failure — including a workbook that
cannot be opened — into a `none` result; within the bulk save loop an
identifier absent from the mapping is silently skipped, but a mapped
identifier whose archive entry is missing raises the underlying `KeyError`
for the whole call. -/
theorem error_propagation_amended (fs : FileSys) (st : CacheState) (path sheet : Str)
    (addr : CellAddr) (outDir : Str) (e : PyErr) (z : Zip) (m : List (Str × Str))
    (id t : Str) (rest : List Str)
    (hload : loadWorkbook fs path = Except.error e)
    (hmiss : alookup path st.wbCache = none) :
    extract_workbook_images fs path outDir = Except.error e ∧
    get_cached_workbook fs st path = (st, Except.error e) ∧
    extract_image_from_cell fs st path sheet addr outDir = (st, none, []) ∧
    (alookup id m = none →
      save_ids_loop z m outDir (id :: rest) = save_ids_loop z m outDir rest) ∧
    (alookup id m = some t → alookup (xl_dir ++ t) z.entries = none →
      save_ids_loop z m outDir (id :: rest)
        = Except.error (PyErr.keyError (xl_dir ++ t))) := by
  have hgw := get_cached_workbook_miss_err fs st path e hmiss hload
  refine ⟨?_, hgw, extract_from_cell_wb_err fs st path sheet addr outDir st e hgw, ?_, ?_⟩
  · simp only [extract_workbook_images, hload]
  · intro hid
    simp only [save_ids_loop, hid]
  · intro hid hent
    simp only [save_ids_loop, hid, zipRead_err z (xl_dir ++ t) hent]

/-- Witness for C8 (amended): bulk extraction on the unreadable file fails
with the underlying load error. -/
theorem error_propagation_amended_witness :
    extract_workbook_images fsBad pathBad out_dir = Except.error PyErr.loadError :=
  (error_propagation_amended fsBad cache0 pathBad ("S".data) (CellAddr.mk 1 1) out_dir
    PyErr.loadError (Zip.mk none []) [] ("x".data) ("y".data) [] rfl rfl).1

/-- C9: the scheme-A phase of `extract_image_from_cell` scans the whole
target column: its outcome is the same for every row of the column (the
target row is never consulted), the scanned identifiers are exactly those of
the column's cells across all rows in row-iteration order, and the first
identifier that resolves successfully, wherever it sits in the column,
becomes the call's result. -/
theorem scheme_a_column_scan (fs : FileSys) (st : CacheState) (path sheet : Str)
    (outDir : Str) (wb : Workbook) (st1 : CacheState) (ws : Worksheet) (c : Nat)
    (loc : Str) (w : List (Str × Bytes))
    (hwb : get_cached_workbook fs st path = (st1, Except.ok wb))
    (hws : find_sheet wb sheet = some ws)
    (hA : try_ids_loop fs path outDir
        (extract_dispimg_ids ws (some (get_column_letter c))) = Except.ok (some (loc, w))) :
    (∀ r, extract_image_from_cell fs st path sheet (CellAddr.mk r c) outDir
      = (st1, some loc, w)) ∧
    (1 ≤ c → extract_dispimg_ids ws (some (get_column_letter c))
      = ((ws.rows.flatten.filter (fun cl => cl.col == c)).filterMap dispimg_scan_cell)) ∧
    (∀ ids1 idx ids2 loc' w',
      (∀ x ∈ ids1, extract_image_by_id fs path x outDir = Except.ok (none, [])) →
      extract_image_by_id fs path idx outDir = Except.ok (some loc', w') →
      try_ids_loop fs path outDir (ids1 ++ idx :: ids2) = Except.ok (some (loc', w'))) := by
  refine ⟨fun r => extract_from_cell_scheme_a fs st path sheet (CellAddr.mk r c) outDir
      st1 wb ws loc w hwb hws hA, ?_,
    fun ids1 idx ids2 loc' w' h1 hid =>
      try_ids_loop_first fs path outDir ids1 idx ids2 loc' w' h1 hid⟩
  intro hc
  rw [extract_dispimg_ids_col ws (get_column_letter c) (get_column_letter_ne_nil c hc),
    col_roundtrip c hc]

/-- Witness for C9: the cell (99, B) of the sample sheet has no formula of
its own, yet scheme A finds and extracts `ID_42` from row 1 of column B. -/
theorem scheme_a_column_scan_witness :
    extract_image_from_cell fsA cache0 pathA ("Sheet1".data) (CellAddr.mk 99 2) out_dir
      = (stA1, some (path_join out_dir ("ID_42".data ++ png_ext)),
         [(path_join out_dir ("ID_42".data ++ png_ext), [137, 80, 78, 71])]) :=
  (scheme_a_column_scan fsA cache0 pathA ("Sheet1".data) out_dir wbA stA1 wsA 2
    (path_join out_dir ("ID_42".data ++ png_ext))
    [(path_join out_dir ("ID_42".data ++ png_ext), [137, 80, 78, 71])]
    rfl rfl rfl).1 99

/-- C10: the position-map build is total — it stores under the pair's key
whatever map it accumulated and returns it; every later build for the same
key, under any file system, returns that stored map unchanged with no fresh
scan (a failed build is never retried); a failed workbook load stores the
empty map; and on a successful build the stored map is the anchor fold over
the sheet's images (unreadable anchors skipped). -/
theorem position_cache_build_total_sticky (fs : FileSys) (st : CacheState)
    (path sheet : Str) :
    alookup (pos_key path sheet) ((build_image_position_cache fs st path sheet).1).posCache
      = some ((build_image_position_cache fs st path sheet).2.1) ∧
    (∀ fs', build_image_position_cache fs'
        (build_image_position_cache fs st path sheet).1 path sheet
      = ((build_image_position_cache fs st path sheet).1,
         (build_image_position_cache fs st path sheet).2.1, 0)) ∧
    (∀ e, alookup (pos_key path sheet) st.posCache = none →
      alookup path st.wbCache = none →
      loadWorkbook fs path = Except.error e →
      build_image_position_cache fs st path sheet
        = (CacheState.mk ((pos_key path sheet, []) :: st.posCache) st.wbCache, [], 0)) ∧
    (∀ wb ws, alookup (pos_key path sheet) st.posCache = none →
      alookup path st.wbCache = some wb →
      find_sheet wb sheet = some ws →
      (build_image_position_cache fs st path sheet).2.1 = build_position_map ws.images) :=
  ⟨build_pm_cache_self fs st path sheet,
   fun fs' => build_pm_sticky fs fs' st path sheet,
   fun e h1 h2 h3 => build_pm_load_failure fs st path sheet e h1 h2 h3,
   fun wb ws h1 h2 h3 => build_pm_result_map fs st path sheet wb ws h1 h2 h3⟩

/-- Witness for C10: on the unreadable file the build swallows the load
error, caches the empty map and reports no scan. -/
theorem position_cache_build_total_sticky_witness :
    build_image_position_cache fsBad cache0 pathBad ("Sheet1".data)
      = (CacheState.mk [(pos_key pathBad ("Sheet1".data), [])] [], [], 0) :=
  (position_cache_build_total_sticky fsBad cache0 pathBad ("Sheet1".data)).2.2.1
    PyErr.loadError rfl rfl rfl
